import Mathlib

/-
Verification development for the openslide-rust convenience layer
(src/convenience.rs, src/properties/aperio.rs).

The native OpenSlide C library is an external collaborator: it is modelled
as an oracle (`NativeLayer`) of pure functions, and every wrapper operation
additionally returns the list of native calls it performs, so that claims
about "the native call is never invoked" and "close is called exactly once"
become statements about these traces.
-/

set_option maxHeartbeats 1000000
set_option maxRecDepth 4000

/-- Calls issued to the native OpenSlide C library (the bindings module).
Pointers are modelled as natural numbers. -/
inductive NativeCall where
  | openCall (path : String)
  | close (ptr : Nat)
  | getLevelCount (ptr : Nat)
  | getLevel0Dimensions (ptr : Nat)
  | getLevelDimensions (ptr : Nat) (level : Int)
  | getLevelDownsample (ptr : Nat) (level : Int)
  | getBestLevelForDownsample (ptr : Nat) (factor : Rat)
  | getPropertyNames (ptr : Nat)
  | getPropertyValue (ptr : Nat) (propName : String)
  deriving DecidableEq

/-- Oracle describing the behaviour of the native library: each bindings
function is a pure function of the pointer and arguments.  `Except` mirrors
the `Result` type of the bindings wrappers. -/
structure NativeLayer where
  openResult : String → Except String Nat
  levelCount : Nat → Except String Int
  level0Dimensions : Nat → Except String (Int × Int)
  levelDimensions : Nat → Int → Except String (Int × Int)
  levelDownsample : Nat → Int → Except String Rat
  bestLevelForDownsample : Nat → Rat → Except String Int
  propertyNames : Nat → Except String (List String)
  propertyValue : Nat → String → Except String String

/-- The `OpenSlide` struct of convenience.rs: it holds a single raw pointer
`osr` to the native slide object. -/
structure OpenSlide where
  osr : Nat
  deriving DecidableEq

/-- `#[derive(Clone)]` on `OpenSlide`: cloning copies the raw pointer value. -/
def OpenSlide.clone (s : OpenSlide) : OpenSlide :=
  OpenSlide.mk s.osr

/-- The `Drop` impl of `OpenSlide`: dropping one `OpenSlide` value issues one
`bindings::close(self.osr)` call. -/
def OpenSlide.dropTrace (s : OpenSlide) : List NativeCall :=
  [NativeCall.close s.osr]

/-- `num::ToPrimitive::to_u32` on a mathematical integer: succeeds exactly
when the value fits in a u32. -/
def toU32 (v : Int) : Option Nat :=
  if 0 ≤ v ∧ v < 4294967296 then some v.toNat else none

/-- `num::ToPrimitive::to_i32` on a mathematical integer: succeeds exactly
when the value fits in an i32. -/
def toI32 (v : Int) : Option Int :=
  if -2147483648 ≤ v ∧ v < 2147483648 then some v else none

/-- Error message of `get_level_count` for a result below the sentinel. -/
def levelCountUnknownMsg (v : Int) : String :=
  "Error: Number of levels is " ++ toString v ++ ", this is an unknown error from OpenSlide. OpenSlide returns -1 if an error occured. See OpenSlide C API documentation."

/-- Error message of `get_level_count` for the sentinel value -1. -/
def levelCountKnownMsg : String :=
  "Error: Number of levels is -1, this is a known error from OpenSlide. OpenSlide returns -1 if an error occured. See OpenSlide C API documentation."

/-- Error message of `get_level0_dimensions` for a width below the sentinel. -/
def widthUnknownMsg (v : Int) : String :=
  "Error: Width is " ++ toString v ++ ", this is an unknown error from OpenSlide. OpenSlide returns -1 if an error occured. See OpenSlide C API documentation."

/-- Error message of `get_level0_dimensions` for the width sentinel -1. -/
def widthKnownMsg : String :=
  "Error: Width is -1, this is a known error from OpenSlide. OpenSlide returns -1 if an error occured. See OpenSlide C API documentation."

/-- Error message of `get_level0_dimensions` for a height below the sentinel.
The source formats the width value into this message (line 97 of
convenience.rs), which the model reproduces faithfully. -/
def heightUnknownMsg (width : Int) : String :=
  "Error: Height is " ++ toString width ++ ", this is an unknown error from OpenSlide. OpenSlide returns -1 if an error occured. See OpenSlide C API documentation."

/-- Error message of `get_level0_dimensions` for the height sentinel -1. -/
def heightKnownMsg : String :=
  "Error: Height is -1, this is a known error from OpenSlide. OpenSlide returns -1 if an error occured. See OpenSlide C API documentation."

/-- Error message of `get_level_dimensions` for a width below the sentinel. -/
def dimsWidthUnknownMsg (v : Int) : String :=
  "Error: Width is " ++ toString v ++ ", this is an unknown error from OpenSlide. OpenSlide returns -1 if an error occured. See OpenSlide C API documentation."

/-- Error message of `get_level_dimensions` for the width sentinel -1
(note the lowercase "openslide" in the source at line 129). -/
def dimsWidthKnownMsg : String :=
  "Error: Width is -1, this is a known error from openslide. OpenSlide returns -1 if an error occured. See OpenSlide C API documentation."

/-- Error message of `get_level_dimensions` for a height below the sentinel
(the source formats the width value here as well, line 137). -/
def dimsHeightUnknownMsg (width : Int) : String :=
  "Error: Height is " ++ toString width ++ ", this is an unknown error from OpenSlide. OpenSlide returns -1 if an error occured. See OpenSlide C API documentation."

/-- Error message of `get_level_dimensions` for the height sentinel -1. -/
def dimsHeightKnownMsg : String :=
  "Error: Height is -1, this is a known error from openslide. OpenSlide returns -1 if an error occured. See OpenSlide C API documentation."

/-- Range error of `get_level_dimensions` and `get_level_downsample`. -/
def rangeErrMsg (level : Int) (maxLevels : Nat) : String :=
  "Error: Specified level " ++ toString level ++ " is larger than the max slide level " ++ toString maxLevels

/-- Error message of `get_level_downsample` for a negative native result. -/
def downsampleNegMsg (f : Rat) : String :=
  "Error: Downsample factor is " ++ toString f ++ ", this is an error from OpenSlide. OpenSlide returns -1.0 if an error occured. See OpenSlide C API documentation."

/-- Precondition error of `get_best_level_for_downsample` for a negative
requested factor. -/
def negFactorMsg (f : Rat) : String :=
  "Error: Only non-negative downsample factor is allowed. You specified " ++ toString f ++ ". "

/-- Error message of `get_best_level_for_downsample` for a result below the
sentinel. -/
def bestLevelUnknownMsg (v : Int) : String :=
  "Error: Returned level is " ++ toString v ++ ", this is an unknown error from OpenSlide. OpenSlide returns -1 if an error occured. See OpenSlide C API documentation."

/-- Error message of `get_best_level_for_downsample` for the sentinel -1
(lowercase "openslide" in the source at line 188). -/
def bestLevelKnownMsg : String :=
  "Error: Returned level is -1, this is a known error from openslide. OpenSlide returns -1 if an error occured. See OpenSlide C API documentation."

/-- `OpenSlide::get_level_count` (convenience.rs lines 56-72): calls the
native level count, then classifies the signed result against the sentinel
-1 before widening to u32. -/
def OpenSlide.get_level_count (s : OpenSlide) (L : NativeLayer) :
    List NativeCall × Except String Nat :=
  ([NativeCall.getLevelCount s.osr],
    match L.levelCount s.osr with
    | Except.error e => Except.error e
    | Except.ok num_levels =>
      if num_levels < -1 then
        Except.error (levelCountUnknownMsg num_levels)
      else if num_levels = -1 then
        Except.error levelCountKnownMsg
      else
        Except.ok num_levels.toNat)

/-- `OpenSlide::get_level0_dimensions` (convenience.rs lines 79-105): calls
the native level-0 dimensions and validates each axis independently against
the sentinel -1. -/
def OpenSlide.get_level0_dimensions (s : OpenSlide) (L : NativeLayer) :
    List NativeCall × Except String (Nat × Nat) :=
  ([NativeCall.getLevel0Dimensions s.osr],
    match L.level0Dimensions s.osr with
    | Except.error e => Except.error e
    | Except.ok (width, height) =>
      if width < -1 then Except.error (widthUnknownMsg width)
      else if width = -1 then Except.error widthKnownMsg
      else if height < -1 then Except.error (heightUnknownMsg width)
      else if height = -1 then Except.error heightKnownMsg
      else Except.ok (width.toNat, height.toNat))

/-- `OpenSlide::get_level_dimensions` (convenience.rs lines 111-145): first
queries the level count, rejects levels with `level > max_num_levels`, then
calls the native per-level dimensions and validates each axis. -/
def OpenSlide.get_level_dimensions (s : OpenSlide) (L : NativeLayer) (level : Int) :
    List NativeCall × Except String (Nat × Nat) :=
  let t1 := (s.get_level_count L).1
  match (s.get_level_count L).2 with
  | Except.error e => (t1, Except.error e)
  | Except.ok max_num_levels =>
    match toU32 level with
    | none => (t1, Except.error ("Conversion to primitive error"))
    | some lu =>
      if max_num_levels < lu then
        (t1, Except.error (rangeErrMsg level max_num_levels))
      else
        match toI32 level with
        | none => (t1, Except.error ("Conversion to primitive error"))
        | some li =>
          (t1 ++ [NativeCall.getLevelDimensions s.osr li],
            match L.levelDimensions s.osr li with
            | Except.error e => Except.error e
            | Except.ok (width, height) =>
              if width < -1 then Except.error (dimsWidthUnknownMsg width)
              else if width = -1 then Except.error dimsWidthKnownMsg
              else if height < -1 then Except.error (dimsHeightUnknownMsg width)
              else if height = -1 then Except.error dimsHeightKnownMsg
              else Except.ok (width.toNat, height.toNat))

/-- `OpenSlide::get_level_downsample` (convenience.rs lines 148-168): same
level-range validation as `get_level_dimensions`, then treats any negative
native result as failure. -/
def OpenSlide.get_level_downsample (s : OpenSlide) (L : NativeLayer) (level : Int) :
    List NativeCall × Except String Rat :=
  let t1 := (s.get_level_count L).1
  match (s.get_level_count L).2 with
  | Except.error e => (t1, Except.error e)
  | Except.ok max_num_levels =>
    match toU32 level with
    | none => (t1, Except.error ("Conversion to primitive error"))
    | some lu =>
      if max_num_levels < lu then
        (t1, Except.error (rangeErrMsg level max_num_levels))
      else
        match toI32 level with
        | none => (t1, Except.error ("Conversion to primitive error"))
        | some li =>
          (t1 ++ [NativeCall.getLevelDownsample s.osr li],
            match L.levelDownsample s.osr li with
            | Except.error e => Except.error e
            | Except.ok downsample_factor =>
              if downsample_factor < 0 then
                Except.error (downsampleNegMsg downsample_factor)
              else
                Except.ok downsample_factor)

/-- `OpenSlide::get_best_level_for_downsample` (convenience.rs lines
171-194): rejects a negative factor before any native call, then classifies
the native result against the sentinel -1. -/
def OpenSlide.get_best_level_for_downsample (s : OpenSlide) (L : NativeLayer)
    (downsample_factor : Rat) : List NativeCall × Except String Nat :=
  if downsample_factor < 0 then
    ([], Except.error (negFactorMsg downsample_factor))
  else
    ([NativeCall.getBestLevelForDownsample s.osr downsample_factor],
      match L.bestLevelForDownsample s.osr downsample_factor with
      | Except.error e => Except.error e
      | Except.ok level =>
        if level < -1 then Except.error (bestLevelUnknownMsg level)
        else if level = -1 then Except.error bestLevelKnownMsg
        else Except.ok level.toNat)

/-- The observations of `std::path::Path` used by `OpenSlide::new`:
`exists()`, `to_str()` (which fails on non-UTF-8 paths) and `display()`. -/
structure PathModel where
  pathExists : Bool
  toStr : Option String
  displayStr : String

/-- `OpenSlide::new` (convenience.rs lines 41-53): checks existence of the
path, converts it to a string slice, and only then calls the native open. -/
def OpenSlide.new (L : NativeLayer) (filename : PathModel) :
    List NativeCall × Except String OpenSlide :=
  if !filename.pathExists then
    ([], Except.error ("Error: Nonexisting path: " ++ filename.displayStr))
  else
    match filename.toStr with
    | none => ([], Except.error ("Error: Path to &str"))
    | some str =>
      match L.openResult str with
      | Except.error e => ([NativeCall.openCall str], Except.error e)
      | Except.ok osr => ([NativeCall.openCall str], Except.ok (OpenSlide.mk osr))

/-- `HashMap::insert` modelled on an association list: the value stored at
the key is replaced, all other entries are kept. -/
def insertProp (m : List (String × String)) (k v : String) : List (String × String) :=
  (m.filter (fun p => p.1 ≠ k)) ++ [(k, v)]

/-- The loop body of `OpenSlide::get_properties` (convenience.rs lines
235-237): for each property name query its value, short-circuiting with `?`
on the first failure. -/
def propsLoop (L : NativeLayer) (ptr : Nat) :
    List String → List (String × String) →
    List NativeCall × Except String (List (String × String))
  | [], acc => ([], Except.ok acc)
  | n :: rest, acc =>
    match L.propertyValue ptr n with
    | Except.error e => ([NativeCall.getPropertyValue ptr n], Except.error e)
    | Except.ok v =>
      let r := propsLoop L ptr rest (insertProp acc n v)
      (NativeCall.getPropertyValue ptr n :: r.1, r.2)

/-- `OpenSlide::get_properties` (convenience.rs lines 231-239): enumerate
all property names, then query each value into a fresh map. -/
def OpenSlide.get_properties (s : OpenSlide) (L : NativeLayer) :
    List NativeCall × Except String (List (String × String)) :=
  match L.propertyNames s.osr with
  | Except.error e => ([NativeCall.getPropertyNames s.osr], Except.error e)
  | Except.ok propNames =>
    let r := propsLoop L s.osr propNames []
    (NativeCall.getPropertyNames s.osr :: r.1, r.2)

/-- Queries a caller can perform on a live handle; each maps to the native
calls its wrapper method issues. -/
inductive Query where
  | levelCount
  | level0Dims
  | levelDims (level : Int)
  | levelDownsample (level : Int)
  | bestLevel (factor : Rat)
  | props

/-- The native calls issued by one query on a handle. -/
def queryTrace (L : NativeLayer) (s : OpenSlide) : Query → List NativeCall
  | Query.levelCount => (s.get_level_count L).1
  | Query.level0Dims => (s.get_level0_dimensions L).1
  | Query.levelDims level => (s.get_level_dimensions L level).1
  | Query.levelDownsample level => (s.get_level_downsample L level).1
  | Query.bestLevel factor => (s.get_best_level_for_downsample L factor).1
  | Query.props => (s.get_properties L).1

/-- Whether a native call is `close` on the given pointer. -/
def isCloseCall (ptr : Nat) : NativeCall → Bool
  | NativeCall.close p => p = ptr
  | _ => false

/-- Number of `close` calls on a pointer in a trace of native calls. -/
def closeCount (trace : List NativeCall) (ptr : Nat) : Nat :=
  (trace.filter (isCloseCall ptr)).length

/-- The whole native-call trace of a handle's lifetime: the handle is
queried some number of times (in Rust, through `&self` methods) and then
dropped exactly once, never having been cloned. -/
def lifetimeTrace (L : NativeLayer) (s : OpenSlide) (qs : List Query) : List NativeCall :=
  (qs.map (queryTrace L s)).flatten ++ s.dropTrace

/-- Modelled from the spec: the word order parameter of the pixel decoder
(the repository's `utils::WordRepresentation`; the utils module is not among
the provided sources, only its callers are). -/
inductive WordRepresentation where
  | bigEndian
  | littleEndian
  deriving DecidableEq

/-- Modelled from the spec: rounding division, `round(n / d)` on natural
numbers (round half up), used for `round(channel * 255 / alpha)`. -/
def roundDiv (n d : Nat) : Nat :=
  (2 * n + d) / (2 * d)

/-- Modelled from the spec: un-premultiplication of one colour channel
byte `c` by the alpha byte `a`: if alpha is 0 the output channel is 0,
otherwise `min(255, round(c * 255 / a))`. -/
def unpremultiply (c a : Nat) : Nat :=
  if a = 0 then 0 else min 255 (roundDiv (c * 255) a)

/-- Modelled from the spec: decoding of one 32-bit pre-multiplied ARGB word
given as its four bytes in buffer order, producing the straight-alpha pixel
in fixed R, G, B, A output order.  In big-endian word order the bytes are
(A, R, G, B); in little-endian order they are reversed, (B, G, R, A). -/
def decodePixel (b0 b1 b2 b3 : Nat) : WordRepresentation → List Nat
  | WordRepresentation.bigEndian =>
    [unpremultiply b1 b0, unpremultiply b2 b0, unpremultiply b3 b0, b0]
  | WordRepresentation.littleEndian =>
    [unpremultiply b2 b3, unpremultiply b1 b3, unpremultiply b0 b3, b3]

/-- Modelled from the spec: the pixel loop of the decoder, consuming the
byte buffer four bytes (one 32-bit word) at a time. -/
def decodePixels : List Nat → WordRepresentation → List Nat
  | b0 :: b1 :: b2 :: b3 :: rest, order =>
    decodePixel b0 b1 b2 b3 order ++ decodePixels rest order
  | _, _ => []

/-- Modelled from the spec: `utils::decode_buffer(buffer, height, width,
word_order)` (the utils module is not among the provided sources).  The
precondition `buffer.length == height * width * 4` is checked first; on
violation a fatal decode error is returned before any pixel is produced. -/
def decode_buffer (buffer : List Nat) (height width : Nat)
    (order : WordRepresentation) : Except String (List Nat) :=
  if buffer.length = height * width * 4 then
    Except.ok (decodePixels buffer order)
  else
    Except.error ("Error: Buffer length does not match height * width * 4")

/-- The input colour channels (r, g, b, a) of pixel `i` of a raw buffer,
located according to the word order: in a big-endian 32-bit ARGB word the
alpha byte comes first, in a little-endian word it comes last. -/
def inputChannels (buffer : List Nat) (order : WordRepresentation) (i : Nat) :
    Nat × Nat × Nat × Nat :=
  match order with
  | WordRepresentation.bigEndian =>
    (buffer.getD (4 * i + 1) 0, buffer.getD (4 * i + 2) 0,
     buffer.getD (4 * i + 3) 0, buffer.getD (4 * i) 0)
  | WordRepresentation.littleEndian =>
    (buffer.getD (4 * i + 2) 0, buffer.getD (4 * i + 1) 0,
     buffer.getD (4 * i) 0, buffer.getD (4 * i + 3) 0)

/-- The `Aperio` property struct of src/properties/aperio.rs.  u32 fields
are modelled as `Nat`, f32 fields as `Rat`. -/
structure Aperio where
  filename : Option String
  image_id : Option String
  scan_scope_id : Option String
  date : Option String
  time : Option String
  user : Option String
  icc_profile : Option String
  parmset : Option String
  original_height : Option Nat
  original_width : Option Nat
  top : Option Rat
  left : Option Rat
  mpp : Option Rat
  line_camera_skew : Option Rat
  line_area_x_offset : Option Rat
  line_area_y_offset : Option Rat
  focus_offset : Option Rat
  app_mag : Option Nat
  stripe_width : Option Nat
  filtered : Option Nat
  deriving DecidableEq

/-- `Aperio::parse_property_name` (aperio.rs lines 32-56).  The std parsers
`u32::from_str_radix(value, 10)` and `f32::from_str_radix(value, 10)` are
external std collaborators, passed as the oracle parameters `u32p` and
`f32p`; the source calls `.unwrap()` on their results, so a parse failure
panics, modelled by `none`.  The default branch only prints a message and
changes nothing. -/
def Aperio.parse_property_name (u32p : String → Option Nat)
    (f32p : String → Option Rat) (self : Aperio) (n v : String) : Option Aperio :=
  if n = "aperio.Filename" then some { self with filename := some v }
  else if n = "aperio.ImageID" then some { self with image_id := some v }
  else if n = "aperio.ScanScope ID" then some { self with scan_scope_id := some v }
  else if n = "aperio.Date" then some { self with date := some v }
  else if n = "aperio.Time" then some { self with time := some v }
  else if n = "aperio.User" then some { self with user := some v }
  else if n = "aperio.ICC Profile" then some { self with icc_profile := some v }
  else if n = "aperio.Parmset" then some { self with parmset := some v }
  else if n = "aperio.Originalheight" then
    (u32p v).map (fun x => { self with original_height := some x })
  else if n = "aperio.OriginalWidth" then
    (u32p v).map (fun x => { self with original_width := some x })
  else if n = "aperio.Top" then
    (f32p v).map (fun x => { self with top := some x })
  else if n = "aperio.Left" then
    (f32p v).map (fun x => { self with left := some x })
  else if n = "aperio.MPP" then
    (f32p v).map (fun x => { self with mpp := some x })
  else if n = "aperio.LineCameraSkew" then
    (f32p v).map (fun x => { self with line_camera_skew := some x })
  else if n = "aperio.LineAreaXOffset" then
    (f32p v).map (fun x => { self with line_area_x_offset := some x })
  else if n = "aperio.LineAreaYOffset" then
    (f32p v).map (fun x => { self with line_area_y_offset := some x })
  else if n = "aperio.Focus Offset" then
    (f32p v).map (fun x => { self with focus_offset := some x })
  else if n = "aperio.AppMag" then
    (u32p v).map (fun x => { self with app_mag := some x })
  else if n = "aperio.StripeWidth" then
    (u32p v).map (fun x => { self with stripe_width := some x })
  else if n = "aperio.Filtered" then
    (u32p v).map (fun x => { self with filtered := some x })
  else some self

/-- The property names recognized by `Aperio::parse_property_name`. -/
def recognizedNames : List String :=
  ["aperio.Filename", "aperio.ImageID", "aperio.ScanScope ID", "aperio.Date",
   "aperio.Time", "aperio.User", "aperio.ICC Profile", "aperio.Parmset",
   "aperio.Originalheight", "aperio.OriginalWidth", "aperio.Top", "aperio.Left",
   "aperio.MPP", "aperio.LineCameraSkew", "aperio.LineAreaXOffset",
   "aperio.LineAreaYOffset", "aperio.Focus Offset", "aperio.AppMag",
   "aperio.StripeWidth", "aperio.Filtered"]

/-- The frame condition for `parse_property_name`: every field whose
property name differs from `n` is unchanged between `a` and a'. -/
def framePreserves (n : String) (a a' : Aperio) : Prop :=
  (n ≠ "aperio.Filename" → a'.filename = a.filename) ∧
  (n ≠ "aperio.ImageID" → a'.image_id = a.image_id) ∧
  (n ≠ "aperio.ScanScope ID" → a'.scan_scope_id = a.scan_scope_id) ∧
  (n ≠ "aperio.Date" → a'.date = a.date) ∧
  (n ≠ "aperio.Time" → a'.time = a.time) ∧
  (n ≠ "aperio.User" → a'.user = a.user) ∧
  (n ≠ "aperio.ICC Profile" → a'.icc_profile = a.icc_profile) ∧
  (n ≠ "aperio.Parmset" → a'.parmset = a.parmset) ∧
  (n ≠ "aperio.Originalheight" → a'.original_height = a.original_height) ∧
  (n ≠ "aperio.OriginalWidth" → a'.original_width = a.original_width) ∧
  (n ≠ "aperio.Top" → a'.top = a.top) ∧
  (n ≠ "aperio.Left" → a'.left = a.left) ∧
  (n ≠ "aperio.MPP" → a'.mpp = a.mpp) ∧
  (n ≠ "aperio.LineCameraSkew" → a'.line_camera_skew = a.line_camera_skew) ∧
  (n ≠ "aperio.LineAreaXOffset" → a'.line_area_x_offset = a.line_area_x_offset) ∧
  (n ≠ "aperio.LineAreaYOffset" → a'.line_area_y_offset = a.line_area_y_offset) ∧
  (n ≠ "aperio.Focus Offset" → a'.focus_offset = a.focus_offset) ∧
  (n ≠ "aperio.AppMag" → a'.app_mag = a.app_mag) ∧
  (n ≠ "aperio.StripeWidth" → a'.stripe_width = a.stripe_width) ∧
  (n ≠ "aperio.Filtered" → a'.filtered = a.filtered)

/-- A concrete native layer used to witness the claims on satisfiable
hypotheses. -/
def testLayer : NativeLayer where
  openResult := fun _ => Except.ok 7
  levelCount := fun _ => Except.ok 3
  level0Dimensions := fun _ => Except.ok (100, 200)
  levelDimensions := fun _ _ => Except.ok (50, 60)
  levelDownsample := fun _ _ => Except.ok 2
  bestLevelForDownsample := fun _ _ => Except.ok 1
  propertyNames := fun _ => Except.ok ["vendor.A", "vendor.B"]
  propertyValue := fun _ n => if n = "vendor.A" then Except.ok ("1") else Except.ok ("2")

lemma closeCount_nil (ptr : Nat) : closeCount [] ptr = 0 := rfl

lemma closeCount_append (t1 t2 : List NativeCall) (ptr : Nat) :
    closeCount (t1 ++ t2) ptr = closeCount t1 ptr + closeCount t2 ptr := by
  simp [closeCount, List.filter_append]

lemma closeCount_eq_zero (trace : List NativeCall) (ptr : Nat)
    (h : ∀ c ∈ trace, isCloseCall ptr c = false) : closeCount trace ptr = 0 := by
  have : trace.filter (isCloseCall ptr) = [] := by
    apply List.filter_eq_nil_iff.mpr
    intro c hc
    simp [h c hc]
  simp [closeCount, this]

lemma get_level_count_trace (L : NativeLayer) (s : OpenSlide) :
    (s.get_level_count L).1 = [NativeCall.getLevelCount s.osr] := rfl

lemma get_level_dimensions_no_close (L : NativeLayer) (s : OpenSlide)
    (level : Int) (ptr : Nat) :
    ∀ c ∈ (s.get_level_dimensions L level).1, isCloseCall ptr c = false := by
  intro c hc
  unfold OpenSlide.get_level_dimensions at hc
  split at hc
  · simp [get_level_count_trace] at hc
    simp [hc, isCloseCall]
  · split at hc
    · simp [get_level_count_trace] at hc
      simp [hc, isCloseCall]
    · split at hc
      · simp [get_level_count_trace] at hc
        simp [hc, isCloseCall]
      · split at hc
        · simp [get_level_count_trace] at hc
          simp [hc, isCloseCall]
        · simp [get_level_count_trace] at hc
          rcases hc with hc | hc <;> simp [hc, isCloseCall]

lemma get_level_downsample_no_close (L : NativeLayer) (s : OpenSlide)
    (level : Int) (ptr : Nat) :
    ∀ c ∈ (s.get_level_downsample L level).1, isCloseCall ptr c = false := by
  intro c hc
  unfold OpenSlide.get_level_downsample at hc
  split at hc
  · simp [get_level_count_trace] at hc
    simp [hc, isCloseCall]
  · split at hc
    · simp [get_level_count_trace] at hc
      simp [hc, isCloseCall]
    · split at hc
      · simp [get_level_count_trace] at hc
        simp [hc, isCloseCall]
      · split at hc
        · simp [get_level_count_trace] at hc
          simp [hc, isCloseCall]
        · simp [get_level_count_trace] at hc
          rcases hc with hc | hc <;> simp [hc, isCloseCall]

lemma get_best_level_no_close (L : NativeLayer) (s : OpenSlide)
    (f : Rat) (ptr : Nat) :
    ∀ c ∈ (s.get_best_level_for_downsample L f).1, isCloseCall ptr c = false := by
  intro c hc
  unfold OpenSlide.get_best_level_for_downsample at hc
  split at hc
  · simp at hc
  · simp at hc
    simp [hc, isCloseCall]

lemma propsLoop_no_close (L : NativeLayer) (ptr p : Nat) :
    ∀ (ns : List String) (acc : List (String × String)),
      ∀ c ∈ (propsLoop L ptr ns acc).1, isCloseCall p c = false := by
  intro ns
  induction ns with
  | nil =>
    intro acc c hc
    simp [propsLoop] at hc
  | cons n rest ih =>
    intro acc c hc
    rw [propsLoop] at hc
    rcases h : L.propertyValue ptr n with e | v <;> rw [h] at hc <;> simp at hc
    · simp [hc, isCloseCall]
    · rcases hc with hc | hc
      · simp [hc, isCloseCall]
      · exact ih (insertProp acc n v) c hc

lemma get_properties_no_close (L : NativeLayer) (s : OpenSlide) (ptr : Nat) :
    ∀ c ∈ (s.get_properties L).1, isCloseCall ptr c = false := by
  intro c hc
  unfold OpenSlide.get_properties at hc
  rcases h : L.propertyNames s.osr with e | ns <;> rw [h] at hc <;> simp at hc
  · simp [hc, isCloseCall]
  · rcases hc with hc | hc
    · simp [hc, isCloseCall]
    · exact propsLoop_no_close L s.osr ptr ns [] c hc

lemma queryTrace_closeCount (L : NativeLayer) (s : OpenSlide) (q : Query) (ptr : Nat) :
    closeCount (queryTrace L s q) ptr = 0 := by
  apply closeCount_eq_zero
  cases q with
  | levelCount =>
    intro c hc
    simp [queryTrace, get_level_count_trace] at hc
    simp [hc, isCloseCall]
  | level0Dims =>
    intro c hc
    simp [queryTrace, OpenSlide.get_level0_dimensions] at hc
    simp [hc, isCloseCall]
  | levelDims level => exact get_level_dimensions_no_close L s level ptr
  | levelDownsample level => exact get_level_downsample_no_close L s level ptr
  | bestLevel f => exact get_best_level_no_close L s f ptr
  | props => exact get_properties_no_close L s ptr

/-- Claim C1, counterexample: `OpenSlide` derives `Clone`, which copies the
raw pointer, and each of the two resulting objects issues its own
`bindings::close` on drop, so the pointer is closed twice — the claim that
no double-release ever occurs even for a duplicated (cloned) handle is
false. -/
theorem c1_clone_double_close_cex :
    (OpenSlide.clone (OpenSlide.mk 0)).osr = (OpenSlide.mk 0).osr ∧
    closeCount ((OpenSlide.mk 0).dropTrace ++ (OpenSlide.clone (OpenSlide.mk 0)).dropTrace) 0 = 2 ∧
    closeCount ((OpenSlide.mk 0).dropTrace ++ (OpenSlide.clone (OpenSlide.mk 0)).dropTrace) 0 ≠ 1 := by
  refine ⟨rfl, by decide, by decide⟩

/-- Claim C1, amended: a handle that is never cloned has its native pointer
closed exactly once over its whole lifetime, no matter how many queries are
performed on it; in general each handle object (including every clone)
issues exactly one close on drop, so a pointer shared by n objects is
closed n times. -/
theorem c1_close_once_amended (L : NativeLayer) (s : OpenSlide) (qs : List Query) :
    closeCount (lifetimeTrace L s qs) s.osr = 1 ∧
    (∀ (objs : List OpenSlide) (ptr : Nat),
      closeCount ((objs.map OpenSlide.dropTrace).flatten) ptr =
        (objs.filter (fun o => o.osr == ptr)).length) := by
  constructor
  · rw [lifetimeTrace, closeCount_append]
    have hq : closeCount ((qs.map (queryTrace L s)).flatten) s.osr = 0 := by
      induction qs with
      | nil => rfl
      | cons q rest ih =>
        simp only [List.map_cons, List.flatten_cons]
        rw [closeCount_append, ih, queryTrace_closeCount]
    rw [hq]
    simp [closeCount, OpenSlide.dropTrace, isCloseCall]
  · intro objs ptr
    induction objs with
    | nil => rfl
    | cons o rest ih =>
      simp only [List.map_cons, List.flatten_cons]
      rw [closeCount_append, ih]
      by_cases h : o.osr = ptr
      · simp [closeCount, OpenSlide.dropTrace, isCloseCall, h, List.filter_cons]
        omega
      · simp [closeCount, OpenSlide.dropTrace, isCloseCall, h, List.filter_cons]

/-- Claim C6: opening a nonexistent path fails with the precondition error
and performs no native call; and a handle is only ever produced from a
successful native open (never partially constructed). -/
theorem c6_open_precondition (L : NativeLayer) (p : PathModel) :
    (p.pathExists = false →
      OpenSlide.new L p = ([], Except.error ("Error: Nonexisting path: " ++ p.displayStr))) ∧
    (∀ h', (OpenSlide.new L p).2 = Except.ok h' →
      ∃ str, p.toStr = some str ∧ L.openResult str = Except.ok h'.osr) := by
  constructor
  · intro h
    simp [OpenSlide.new, h]
  · intro h' hok
    unfold OpenSlide.new at hok
    by_cases hp : p.pathExists
    · simp only [hp, Bool.not_true, Bool.false_eq_true, if_false] at hok
      split at hok
      next hts => simp at hok
      next str hts =>
        split at hok
        next e hor => simp at hok
        next ptr hor =>
          simp at hok
          subst hok
          exact ⟨str, hts, hor⟩
    · simp [hp] at hok

/-- Witness for C6: a nonexistent path is rejected without native calls,
and a successful open yields a handle holding the natively returned
pointer. -/
theorem c6_open_precondition_witness :
    OpenSlide.new testLayer (PathModel.mk false none ("missing.svs")) =
      ([], Except.error ("Error: Nonexisting path: " ++ "missing.svs")) ∧
    ∃ str, (PathModel.mk true (some ("ok.svs")) ("ok.svs")).toStr = some str ∧
      testLayer.openResult str = Except.ok (OpenSlide.mk 7).osr := by
  constructor
  · exact (c6_open_precondition testLayer (PathModel.mk false none ("missing.svs"))).1 rfl
  · exact (c6_open_precondition testLayer (PathModel.mk true (some ("ok.svs")) ("ok.svs"))).2
      (OpenSlide.mk 7) rfl

/-- Claim C7: `get_best_level_for_downsample` rejects a negative factor
before any native call (empty native trace), and passes a non-negative
factor to the native best-level call. -/
theorem c7_negative_downsample (L : NativeLayer) (s : OpenSlide) (f : Rat) :
    (f < 0 → s.get_best_level_for_downsample L f =
      ([], Except.error (negFactorMsg f))) ∧
    (0 ≤ f → (s.get_best_level_for_downsample L f).1 =
      [NativeCall.getBestLevelForDownsample s.osr f]) := by
  constructor
  · intro h
    simp [OpenSlide.get_best_level_for_downsample, h]
  · intro h
    simp [OpenSlide.get_best_level_for_downsample, not_lt.mpr h]

/-- Witness for C7: factor -1 is rejected with no native call; factor 2
reaches the native layer. -/
theorem c7_negative_downsample_witness :
    (OpenSlide.mk 0).get_best_level_for_downsample testLayer (-1) =
      ([], Except.error (negFactorMsg (-1))) ∧
    ((OpenSlide.mk 0).get_best_level_for_downsample testLayer 2).1 =
      [NativeCall.getBestLevelForDownsample 0 2] :=
  ⟨(c7_negative_downsample testLayer (OpenSlide.mk 0) (-1)).1 (by norm_num),
   (c7_negative_downsample testLayer (OpenSlide.mk 0) 2).2 (by norm_num)⟩

/-- Claim C10: a path that exists but is not convertible to a UTF-8 string
slice makes `OpenSlide::new` fail with the conversion error, before the
native open call. -/
theorem c10_nonutf8_path (L : NativeLayer) (p : PathModel)
    (h1 : p.pathExists = true) (h2 : p.toStr = none) :
    OpenSlide.new L p = ([], Except.error ("Error: Path to &str")) := by
  simp [OpenSlide.new, h1, h2]

/-- Witness for C10 at a concrete existing-but-unconvertible path. -/
theorem c10_nonutf8_path_witness :
    OpenSlide.new testLayer (PathModel.mk true none ("bad")) =
      ([], Except.error ("Error: Path to &str")) :=
  c10_nonutf8_path testLayer (PathModel.mk true none ("bad")) rfl rfl

lemma msg_ne_of_length (a v b c : String)
    (h : c.length < a.length + b.length) : a ++ v ++ b ≠ c := by
  intro he
  have hl : (a ++ v ++ b).length = c.length := by rw [he]
  rw [String.length_append, String.length_append] at hl
  omega

lemma levelCount_msg_ne (v : Int) :
    levelCountUnknownMsg v ≠ levelCountKnownMsg := by
  unfold levelCountUnknownMsg
  apply msg_ne_of_length
  decide

lemma width_msg_ne (v : Int) : widthUnknownMsg v ≠ widthKnownMsg := by
  unfold widthUnknownMsg
  apply msg_ne_of_length
  decide

lemma height_msg_ne (v : Int) : heightUnknownMsg v ≠ heightKnownMsg := by
  unfold heightUnknownMsg
  apply msg_ne_of_length
  decide

lemma bestLevel_msg_ne (v : Int) :
    bestLevelUnknownMsg v ≠ bestLevelKnownMsg := by
  unfold bestLevelUnknownMsg
  apply msg_ne_of_length
  decide

/-- Claim C3: the sentinel translation protocol, for the native integer
results of the level count, each level-0 dimension axis, and the best level
for a downsample factor: the sentinel -1 gives the known-failure error, a
value below -1 gives a distinct unknown/invalid-result error, and any other
value is accepted and widened to the unsigned domain. -/
theorem c3_sentinel_translation (L : NativeLayer) (s : OpenSlide) :
    (∀ v : Int, L.levelCount s.osr = Except.ok v →
      (v = -1 → (s.get_level_count L).2 = Except.error levelCountKnownMsg) ∧
      (v < -1 → (s.get_level_count L).2 = Except.error (levelCountUnknownMsg v) ∧
        levelCountUnknownMsg v ≠ levelCountKnownMsg) ∧
      (-1 < v → (s.get_level_count L).2 = Except.ok v.toNat)) ∧
    (∀ wd ht : Int, L.level0Dimensions s.osr = Except.ok (wd, ht) →
      (wd = -1 → (s.get_level0_dimensions L).2 = Except.error widthKnownMsg) ∧
      (wd < -1 → (s.get_level0_dimensions L).2 = Except.error (widthUnknownMsg wd) ∧
        widthUnknownMsg wd ≠ widthKnownMsg) ∧
      (-1 < wd →
        (ht = -1 → (s.get_level0_dimensions L).2 = Except.error heightKnownMsg) ∧
        (ht < -1 → (s.get_level0_dimensions L).2 = Except.error (heightUnknownMsg wd) ∧
          heightUnknownMsg wd ≠ heightKnownMsg) ∧
        (-1 < ht → (s.get_level0_dimensions L).2 = Except.ok (wd.toNat, ht.toNat)))) ∧
    (∀ f : Rat, 0 ≤ f → ∀ v : Int, L.bestLevelForDownsample s.osr f = Except.ok v →
      (v = -1 → (s.get_best_level_for_downsample L f).2 = Except.error bestLevelKnownMsg) ∧
      (v < -1 → (s.get_best_level_for_downsample L f).2 = Except.error (bestLevelUnknownMsg v) ∧
        bestLevelUnknownMsg v ≠ bestLevelKnownMsg) ∧
      (-1 < v → (s.get_best_level_for_downsample L f).2 = Except.ok v.toNat)) := by
  refine ⟨?_, ?_, ?_⟩
  · intro v hv
    have hbase : (s.get_level_count L).2 =
        (if v < -1 then Except.error (levelCountUnknownMsg v)
         else if v = -1 then Except.error levelCountKnownMsg
         else Except.ok v.toNat) := by
      simp [OpenSlide.get_level_count, hv]
    refine ⟨?_, ?_, ?_⟩
    · intro h
      rw [hbase, if_neg (by omega), if_pos h]
    · intro h
      exact ⟨by rw [hbase, if_pos h], levelCount_msg_ne v⟩
    · intro h
      rw [hbase, if_neg (by omega), if_neg (by omega)]
  · intro wd ht hv
    have hbase : (s.get_level0_dimensions L).2 =
        (if wd < -1 then Except.error (widthUnknownMsg wd)
         else if wd = -1 then Except.error widthKnownMsg
         else if ht < -1 then Except.error (heightUnknownMsg wd)
         else if ht = -1 then Except.error heightKnownMsg
         else Except.ok (wd.toNat, ht.toNat)) := by
      simp [OpenSlide.get_level0_dimensions, hv]
    refine ⟨?_, ?_, ?_⟩
    · intro h
      rw [hbase, if_neg (by omega), if_pos h]
    · intro h
      exact ⟨by rw [hbase, if_pos h], width_msg_ne wd⟩
    · intro h
      refine ⟨?_, ?_, ?_⟩
      · intro hh
        rw [hbase, if_neg (by omega), if_neg (by omega), if_neg (by omega), if_pos hh]
      · intro hh
        exact ⟨by rw [hbase, if_neg (by omega), if_neg (by omega), if_pos hh],
          height_msg_ne wd⟩
      · intro hh
        rw [hbase, if_neg (by omega), if_neg (by omega), if_neg (by omega),
          if_neg (by omega)]
  · intro f hf v hv
    have hbase : (s.get_best_level_for_downsample L f).2 =
        (if v < -1 then Except.error (bestLevelUnknownMsg v)
         else if v = -1 then Except.error bestLevelKnownMsg
         else Except.ok v.toNat) := by
      simp [OpenSlide.get_best_level_for_downsample, not_lt.mpr hf, hv]
    refine ⟨?_, ?_, ?_⟩
    · intro h
      rw [hbase, if_neg (by omega), if_pos h]
    · intro h
      exact ⟨by rw [hbase, if_pos h], bestLevel_msg_ne v⟩
    · intro h
      rw [hbase, if_neg (by omega), if_neg (by omega)]

/-- A native layer whose level count query reports the known-failure
sentinel -1. -/
def lcKnownLayer : NativeLayer :=
  { testLayer with levelCount := fun _ => Except.ok (-1) }

/-- A native layer whose level count query reports -5, below the sentinel. -/
def lcUnknownLayer : NativeLayer :=
  { testLayer with levelCount := fun _ => Except.ok (-5) }

/-- Witness for C3: the known-failure, unknown-failure and success branches
for the level count, and the success branches of the level-0 dimensions and
the best level, all at concrete native layers. -/
theorem c3_sentinel_translation_witness :
    ((OpenSlide.mk 0).get_level_count lcKnownLayer).2 = Except.error levelCountKnownMsg ∧
    ((OpenSlide.mk 0).get_level_count lcUnknownLayer).2 =
      Except.error (levelCountUnknownMsg (-5)) ∧
    ((OpenSlide.mk 0).get_level_count testLayer).2 = Except.ok 3 ∧
    ((OpenSlide.mk 0).get_level0_dimensions testLayer).2 = Except.ok (100, 200) ∧
    ((OpenSlide.mk 0).get_best_level_for_downsample testLayer 2).2 = Except.ok 1 := by
  refine ⟨?_, ?_, ?_, ?_, ?_⟩
  · exact ((c3_sentinel_translation lcKnownLayer (OpenSlide.mk 0)).1 (-1) rfl).1 rfl
  · exact (((c3_sentinel_translation lcUnknownLayer (OpenSlide.mk 0)).1 (-5) rfl).2.1
      (by norm_num)).1
  · exact ((c3_sentinel_translation testLayer (OpenSlide.mk 0)).1 3 rfl).2.2 (by norm_num)
  · exact (((c3_sentinel_translation testLayer (OpenSlide.mk 0)).2.1 100 200 rfl).2.2
      (by norm_num)).2.2 (by norm_num)
  · exact ((c3_sentinel_translation testLayer (OpenSlide.mk 0)).2.2 2 (by norm_num) 1
      rfl).2.2 (by norm_num)

/-- Claim C4, counterexample: with a level count of 3, the level argument 3
lies outside the valid range [0, 3), yet both `get_level_dimensions` and
`get_level_downsample` accept it (the source only rejects `level >
level_count`) and invoke the native per-level call for it. -/
theorem c4_boundary_level_cex :
    ((OpenSlide.mk 0).get_level_count testLayer).2 = Except.ok 3 ∧
    ((OpenSlide.mk 0).get_level_dimensions testLayer 3).2 = Except.ok (50, 60) ∧
    NativeCall.getLevelDimensions 0 3 ∈ ((OpenSlide.mk 0).get_level_dimensions testLayer 3).1 ∧
    ((OpenSlide.mk 0).get_level_downsample testLayer 3).2 = Except.ok 2 ∧
    NativeCall.getLevelDownsample 0 3 ∈ ((OpenSlide.mk 0).get_level_downsample testLayer 3).1 := by
  refine ⟨rfl, rfl, ?_, rfl, ?_⟩ <;> decide

/-- Claim C4, amended: a level argument strictly greater than the level
count (after a successful u32 conversion) is rejected with the descriptive
range error naming the offending level and the maximum, and the native
dimension/downsample call is never invoked (the trace holds only the level
count query); a level that does not convert to u32 is rejected with a
conversion error, equally without any native dimension/downsample call.
The boundary `level == level_count`, although outside [0, level_count),
passes the validation. -/
theorem c4_range_check_amended (L : NativeLayer) (s : OpenSlide) (level : Int)
    (n : Nat) (hn : (s.get_level_count L).2 = Except.ok n) :
    (∀ lu, toU32 level = some lu → n < lu →
      s.get_level_dimensions L level =
        ([NativeCall.getLevelCount s.osr], Except.error (rangeErrMsg level n)) ∧
      s.get_level_downsample L level =
        ([NativeCall.getLevelCount s.osr], Except.error (rangeErrMsg level n))) ∧
    (toU32 level = none →
      s.get_level_dimensions L level =
        ([NativeCall.getLevelCount s.osr], Except.error ("Conversion to primitive error")) ∧
      s.get_level_downsample L level =
        ([NativeCall.getLevelCount s.osr], Except.error ("Conversion to primitive error"))) := by
  constructor
  · intro lu hu hlt
    constructor <;>
      simp [OpenSlide.get_level_dimensions, OpenSlide.get_level_downsample, hn, hu,
        hlt, get_level_count_trace]
  · intro hu
    constructor <;>
      simp [OpenSlide.get_level_dimensions, OpenSlide.get_level_downsample, hn, hu,
        get_level_count_trace]

/-- Witness for C4 (amended): level 5 against a slide with level count 3 is
rejected by both calls with the range error, with only the level count query
in the native trace; and level -1 fails the u32 conversion. -/
theorem c4_range_check_amended_witness :
    ((OpenSlide.mk 0).get_level_dimensions testLayer 5 =
      ([NativeCall.getLevelCount 0], Except.error (rangeErrMsg 5 3)) ∧
    (OpenSlide.mk 0).get_level_downsample testLayer 5 =
      ([NativeCall.getLevelCount 0], Except.error (rangeErrMsg 5 3))) ∧
    ((OpenSlide.mk 0).get_level_dimensions testLayer (-1) =
      ([NativeCall.getLevelCount 0], Except.error ("Conversion to primitive error")) ∧
    (OpenSlide.mk 0).get_level_downsample testLayer (-1) =
      ([NativeCall.getLevelCount 0], Except.error ("Conversion to primitive error"))) :=
  ⟨(c4_range_check_amended testLayer (OpenSlide.mk 0) 5 3 rfl).1 5 rfl (by norm_num),
   (c4_range_check_amended testLayer (OpenSlide.mk 0) (-1) 3 rfl).2 (by decide)⟩

lemma mem_keys_insertProp (m : List (String × String)) (k v k' : String) :
    k' ∈ (insertProp m k v).map Prod.fst ↔ k' ∈ m.map Prod.fst ∨ k' = k := by
  simp only [insertProp, List.map_append, List.mem_append, List.mem_map,
    List.mem_filter]
  constructor
  · rintro (⟨p, ⟨hm, hne⟩, rfl⟩ | hk)
    · exact Or.inl ⟨p, hm, rfl⟩
    · simp at hk
      exact Or.inr hk.symm
  · rintro (⟨p, hm, rfl⟩ | rfl)
    · by_cases h : p.1 = k
      · refine Or.inr ?_
        simp [h]
      · exact Or.inl ⟨p, ⟨hm, by simp [h]⟩, rfl⟩
    · refine Or.inr ?_
      simp

lemma nodup_keys_insertProp (m : List (String × String)) (k v : String)
    (h : (m.map Prod.fst).Nodup) :
    ((insertProp m k v).map Prod.fst).Nodup := by
  rw [insertProp, List.map_append]
  refine List.Nodup.append ?_ ?_ ?_
  · exact h.sublist (List.Sublist.map Prod.fst (List.filter_sublist m))
  · simp
  · intro a ha hb
    simp at hb
    subst hb
    simp only [List.mem_map, List.mem_filter] at ha
    obtain ⟨p, ⟨_, hne⟩, hpk⟩ := ha
    simp [hpk] at hne

lemma insertProp_good (L : NativeLayer) (ptr : Nat) (acc : List (String × String))
    (k v : String)
    (hacc : ∀ a b, (a, b) ∈ acc → L.propertyValue ptr a = Except.ok b)
    (hkv : L.propertyValue ptr k = Except.ok v) :
    ∀ a b, (a, b) ∈ insertProp acc k v → L.propertyValue ptr a = Except.ok b := by
  intro a b hab
  rw [insertProp] at hab
  rcases List.mem_append.mp hab with hmem | hmem
  · exact hacc a b (List.mem_filter.mp hmem).1
  · simp at hmem
    rw [hmem.1, hmem.2]
    exact hkv

lemma propsLoop_ok (L : NativeLayer) (ptr : Nat) :
    ∀ (ns : List String) (acc : List (String × String)),
      (∀ n ∈ ns, ∃ v, L.propertyValue ptr n = Except.ok v) →
      ∃ m, (propsLoop L ptr ns acc).2 = Except.ok m ∧
        (∀ k, k ∈ m.map Prod.fst ↔ k ∈ acc.map Prod.fst ∨ k ∈ ns) ∧
        ((acc.map Prod.fst).Nodup → (m.map Prod.fst).Nodup) ∧
        ((∀ a b, (a, b) ∈ acc → L.propertyValue ptr a = Except.ok b) →
          ∀ a b, (a, b) ∈ m → L.propertyValue ptr a = Except.ok b)
  | [], acc => fun _ => ⟨acc, rfl, by simp, id, id⟩
  | n :: rest, acc => by
    intro hok
    obtain ⟨v, hv⟩ := hok n (by simp)
    obtain ⟨m, hm, hkeys, hnd, hgood⟩ := propsLoop_ok L ptr rest (insertProp acc n v)
      (fun x hx => hok x (by simp [hx]))
    refine ⟨m, ?_, ?_, ?_, ?_⟩
    · rw [propsLoop, hv]
      exact hm
    · intro k
      rw [hkeys k, mem_keys_insertProp]
      simp only [List.mem_cons]
      tauto
    · intro hnda
      exact hnd (nodup_keys_insertProp acc n v hnda)
    · intro hacc
      exact hgood (insertProp_good L ptr acc n v hacc hv)

lemma propsLoop_err (L : NativeLayer) (ptr : Nat) :
    ∀ (ns : List String) (acc : List (String × String)),
      (∃ n ∈ ns, ∃ e, L.propertyValue ptr n = Except.error e) →
      ∃ e', (propsLoop L ptr ns acc).2 = Except.error e'
  | [], _ => by
    rintro ⟨n, hn, _⟩
    simp at hn
  | n :: rest, acc => by
    rintro ⟨x, hx, e, he⟩
    rcases hv : L.propertyValue ptr n with e0 | v
    · exact ⟨e0, by rw [propsLoop, hv]⟩
    · rcases List.mem_cons.mp hx with rfl | hx'
      · rw [hv] at he
        simp at he
      · obtain ⟨e', he'⟩ := propsLoop_err L ptr rest (insertProp acc n v) ⟨x, hx', e, he⟩
        refine ⟨e', ?_⟩
        rw [propsLoop, hv]
        exact he'

/-- Claim C8: `get_properties` enumerates all property names and queries
each value; if any single value query fails the whole call fails, and on
success the returned map has exactly one entry per enumerated name, each
bound to its queried value. -/
theorem c8_properties_fail_fast (L : NativeLayer) (s : OpenSlide) (ns : List String)
    (hns : L.propertyNames s.osr = Except.ok ns) :
    ((∃ n ∈ ns, ∃ e, L.propertyValue s.osr n = Except.error e) →
      ∃ e', (s.get_properties L).2 = Except.error e') ∧
    ((∀ n ∈ ns, ∃ v, L.propertyValue s.osr n = Except.ok v) →
      ∃ m, (s.get_properties L).2 = Except.ok m ∧
        (m.map Prod.fst).Nodup ∧
        (∀ k, k ∈ m.map Prod.fst ↔ k ∈ ns) ∧
        (∀ k v, (k, v) ∈ m → L.propertyValue s.osr k = Except.ok v)) := by
  have hred : (s.get_properties L).2 = (propsLoop L s.osr ns []).2 := by
    unfold OpenSlide.get_properties
    rw [hns]
  constructor
  · intro hex
    obtain ⟨e', he'⟩ := propsLoop_err L s.osr ns [] hex
    exact ⟨e', by rw [hred]; exact he'⟩
  · intro hok
    obtain ⟨m, hm, hkeys, hnd, hgood⟩ := propsLoop_ok L s.osr ns [] hok
    refine ⟨m, by rw [hred]; exact hm, hnd (by simp), fun k => by simpa using hkeys k,
      fun k v hkv => hgood (by simp) k v hkv⟩

/-- Witness for C8: against a slide exposing names vendor.A with value 1 and
vendor.B with value 2, the returned map is exactly those two entries. -/
theorem c8_properties_fail_fast_witness :
    ((OpenSlide.mk 0).get_properties testLayer).2 =
      Except.ok [("vendor.A", "1"), ("vendor.B", "2")] ∧
    ∃ m, ((OpenSlide.mk 0).get_properties testLayer).2 = Except.ok m ∧
      (m.map Prod.fst).Nodup ∧
      (∀ k, k ∈ m.map Prod.fst ↔ k ∈ ["vendor.A", "vendor.B"]) ∧
      (∀ k v, (k, v) ∈ m → testLayer.propertyValue 0 k = Except.ok v) := by
  refine ⟨rfl, ?_⟩
  refine (c8_properties_fail_fast testLayer (OpenSlide.mk 0) ["vendor.A", "vendor.B"]
    rfl).2 ?_
  intro n hn
  simp at hn
  rcases hn with rfl | rfl
  · exact ⟨"1", rfl⟩
  · exact ⟨"2", rfl⟩

/-- Claim C9: `Aperio::parse_property_name` changes at most the one field
named by the property, leaves every other field unchanged, and leaves the
whole struct unchanged for an unrecognized name (whenever it returns, i.e.
does not panic in `unwrap`). -/
theorem c9_parse_property_frame (u32p : String → Option Nat)
    (f32p : String → Option Rat) (a : Aperio) (n v : String) (a' : Aperio)
    (h : Aperio.parse_property_name u32p f32p a n v = some a') :
    framePreserves n a a' ∧ (n ∉ recognizedNames → a' = a) := by
  unfold Aperio.parse_property_name at h
  by_cases h1 : n = "aperio.Filename"
  · rw [if_pos h1] at h
    obtain rfl := Option.some.inj h
    subst h1
    exact ⟨⟨fun hc => absurd rfl hc, fun _ => rfl, fun _ => rfl, fun _ => rfl, fun _ => rfl, fun _ => rfl, fun _ => rfl, fun _ => rfl, fun _ => rfl, fun _ => rfl, fun _ => rfl, fun _ => rfl, fun _ => rfl, fun _ => rfl, fun _ => rfl, fun _ => rfl, fun _ => rfl, fun _ => rfl, fun _ => rfl, fun _ => rfl⟩, fun hmem => absurd (by decide) hmem⟩
  · rw [if_neg h1] at h
    by_cases h2 : n = "aperio.ImageID"
    · rw [if_pos h2] at h
      obtain rfl := Option.some.inj h
      subst h2
      exact ⟨⟨fun _ => rfl, fun hc => absurd rfl hc, fun _ => rfl, fun _ => rfl, fun _ => rfl, fun _ => rfl, fun _ => rfl, fun _ => rfl, fun _ => rfl, fun _ => rfl, fun _ => rfl, fun _ => rfl, fun _ => rfl, fun _ => rfl, fun _ => rfl, fun _ => rfl, fun _ => rfl, fun _ => rfl, fun _ => rfl, fun _ => rfl⟩, fun hmem => absurd (by decide) hmem⟩
    · rw [if_neg h2] at h
      by_cases h3 : n = "aperio.ScanScope ID"
      · rw [if_pos h3] at h
        obtain rfl := Option.some.inj h
        subst h3
        exact ⟨⟨fun _ => rfl, fun _ => rfl, fun hc => absurd rfl hc, fun _ => rfl, fun _ => rfl, fun _ => rfl, fun _ => rfl, fun _ => rfl, fun _ => rfl, fun _ => rfl, fun _ => rfl, fun _ => rfl, fun _ => rfl, fun _ => rfl, fun _ => rfl, fun _ => rfl, fun _ => rfl, fun _ => rfl, fun _ => rfl, fun _ => rfl⟩, fun hmem => absurd (by decide) hmem⟩
      · rw [if_neg h3] at h
        by_cases h4 : n = "aperio.Date"
        · rw [if_pos h4] at h
          obtain rfl := Option.some.inj h
          subst h4
          exact ⟨⟨fun _ => rfl, fun _ => rfl, fun _ => rfl, fun hc => absurd rfl hc, fun _ => rfl, fun _ => rfl, fun _ => rfl, fun _ => rfl, fun _ => rfl, fun _ => rfl, fun _ => rfl, fun _ => rfl, fun _ => rfl, fun _ => rfl, fun _ => rfl, fun _ => rfl, fun _ => rfl, fun _ => rfl, fun _ => rfl, fun _ => rfl⟩, fun hmem => absurd (by decide) hmem⟩
        · rw [if_neg h4] at h
          by_cases h5 : n = "aperio.Time"
          · rw [if_pos h5] at h
            obtain rfl := Option.some.inj h
            subst h5
            exact ⟨⟨fun _ => rfl, fun _ => rfl, fun _ => rfl, fun _ => rfl, fun hc => absurd rfl hc, fun _ => rfl, fun _ => rfl, fun _ => rfl, fun _ => rfl, fun _ => rfl, fun _ => rfl, fun _ => rfl, fun _ => rfl, fun _ => rfl, fun _ => rfl, fun _ => rfl, fun _ => rfl, fun _ => rfl, fun _ => rfl, fun _ => rfl⟩, fun hmem => absurd (by decide) hmem⟩
          · rw [if_neg h5] at h
            by_cases h6 : n = "aperio.User"
            · rw [if_pos h6] at h
              obtain rfl := Option.some.inj h
              subst h6
              exact ⟨⟨fun _ => rfl, fun _ => rfl, fun _ => rfl, fun _ => rfl, fun _ => rfl, fun hc => absurd rfl hc, fun _ => rfl, fun _ => rfl, fun _ => rfl, fun _ => rfl, fun _ => rfl, fun _ => rfl, fun _ => rfl, fun _ => rfl, fun _ => rfl, fun _ => rfl, fun _ => rfl, fun _ => rfl, fun _ => rfl, fun _ => rfl⟩, fun hmem => absurd (by decide) hmem⟩
            · rw [if_neg h6] at h
              by_cases h7 : n = "aperio.ICC Profile"
              · rw [if_pos h7] at h
                obtain rfl := Option.some.inj h
                subst h7
                exact ⟨⟨fun _ => rfl, fun _ => rfl, fun _ => rfl, fun _ => rfl, fun _ => rfl, fun _ => rfl, fun hc => absurd rfl hc, fun _ => rfl, fun _ => rfl, fun _ => rfl, fun _ => rfl, fun _ => rfl, fun _ => rfl, fun _ => rfl, fun _ => rfl, fun _ => rfl, fun _ => rfl, fun _ => rfl, fun _ => rfl, fun _ => rfl⟩, fun hmem => absurd (by decide) hmem⟩
              · rw [if_neg h7] at h
                by_cases h8 : n = "aperio.Parmset"
                · rw [if_pos h8] at h
                  obtain rfl := Option.some.inj h
                  subst h8
                  exact ⟨⟨fun _ => rfl, fun _ => rfl, fun _ => rfl, fun _ => rfl, fun _ => rfl, fun _ => rfl, fun _ => rfl, fun hc => absurd rfl hc, fun _ => rfl, fun _ => rfl, fun _ => rfl, fun _ => rfl, fun _ => rfl, fun _ => rfl, fun _ => rfl, fun _ => rfl, fun _ => rfl, fun _ => rfl, fun _ => rfl, fun _ => rfl⟩, fun hmem => absurd (by decide) hmem⟩
                · rw [if_neg h8] at h
                  by_cases h9 : n = "aperio.Originalheight"
                  · rw [if_pos h9] at h
                    obtain ⟨x, hx, rfl⟩ := Option.map_eq_some'.mp h
                    subst h9
                    exact ⟨⟨fun _ => rfl, fun _ => rfl, fun _ => rfl, fun _ => rfl, fun _ => rfl, fun _ => rfl, fun _ => rfl, fun _ => rfl, fun hc => absurd rfl hc, fun _ => rfl, fun _ => rfl, fun _ => rfl, fun _ => rfl, fun _ => rfl, fun _ => rfl, fun _ => rfl, fun _ => rfl, fun _ => rfl, fun _ => rfl, fun _ => rfl⟩, fun hmem => absurd (by decide) hmem⟩
                  · rw [if_neg h9] at h
                    by_cases h10 : n = "aperio.OriginalWidth"
                    · rw [if_pos h10] at h
                      obtain ⟨x, hx, rfl⟩ := Option.map_eq_some'.mp h
                      subst h10
                      exact ⟨⟨fun _ => rfl, fun _ => rfl, fun _ => rfl, fun _ => rfl, fun _ => rfl, fun _ => rfl, fun _ => rfl, fun _ => rfl, fun _ => rfl, fun hc => absurd rfl hc, fun _ => rfl, fun _ => rfl, fun _ => rfl, fun _ => rfl, fun _ => rfl, fun _ => rfl, fun _ => rfl, fun _ => rfl, fun _ => rfl, fun _ => rfl⟩, fun hmem => absurd (by decide) hmem⟩
                    · rw [if_neg h10] at h
                      by_cases h11 : n = "aperio.Top"
                      · rw [if_pos h11] at h
                        obtain ⟨x, hx, rfl⟩ := Option.map_eq_some'.mp h
                        subst h11
                        exact ⟨⟨fun _ => rfl, fun _ => rfl, fun _ => rfl, fun _ => rfl, fun _ => rfl, fun _ => rfl, fun _ => rfl, fun _ => rfl, fun _ => rfl, fun _ => rfl, fun hc => absurd rfl hc, fun _ => rfl, fun _ => rfl, fun _ => rfl, fun _ => rfl, fun _ => rfl, fun _ => rfl, fun _ => rfl, fun _ => rfl, fun _ => rfl⟩, fun hmem => absurd (by decide) hmem⟩
                      · rw [if_neg h11] at h
                        by_cases h12 : n = "aperio.Left"
                        · rw [if_pos h12] at h
                          obtain ⟨x, hx, rfl⟩ := Option.map_eq_some'.mp h
                          subst h12
                          exact ⟨⟨fun _ => rfl, fun _ => rfl, fun _ => rfl, fun _ => rfl, fun _ => rfl, fun _ => rfl, fun _ => rfl, fun _ => rfl, fun _ => rfl, fun _ => rfl, fun _ => rfl, fun hc => absurd rfl hc, fun _ => rfl, fun _ => rfl, fun _ => rfl, fun _ => rfl, fun _ => rfl, fun _ => rfl, fun _ => rfl, fun _ => rfl⟩, fun hmem => absurd (by decide) hmem⟩
                        · rw [if_neg h12] at h
                          by_cases h13 : n = "aperio.MPP"
                          · rw [if_pos h13] at h
                            obtain ⟨x, hx, rfl⟩ := Option.map_eq_some'.mp h
                            subst h13
                            exact ⟨⟨fun _ => rfl, fun _ => rfl, fun _ => rfl, fun _ => rfl, fun _ => rfl, fun _ => rfl, fun _ => rfl, fun _ => rfl, fun _ => rfl, fun _ => rfl, fun _ => rfl, fun _ => rfl, fun hc => absurd rfl hc, fun _ => rfl, fun _ => rfl, fun _ => rfl, fun _ => rfl, fun _ => rfl, fun _ => rfl, fun _ => rfl⟩, fun hmem => absurd (by decide) hmem⟩
                          · rw [if_neg h13] at h
                            by_cases h14 : n = "aperio.LineCameraSkew"
                            · rw [if_pos h14] at h
                              obtain ⟨x, hx, rfl⟩ := Option.map_eq_some'.mp h
                              subst h14
                              exact ⟨⟨fun _ => rfl, fun _ => rfl, fun _ => rfl, fun _ => rfl, fun _ => rfl, fun _ => rfl, fun _ => rfl, fun _ => rfl, fun _ => rfl, fun _ => rfl, fun _ => rfl, fun _ => rfl, fun _ => rfl, fun hc => absurd rfl hc, fun _ => rfl, fun _ => rfl, fun _ => rfl, fun _ => rfl, fun _ => rfl, fun _ => rfl⟩, fun hmem => absurd (by decide) hmem⟩
                            · rw [if_neg h14] at h
                              by_cases h15 : n = "aperio.LineAreaXOffset"
                              · rw [if_pos h15] at h
                                obtain ⟨x, hx, rfl⟩ := Option.map_eq_some'.mp h
                                subst h15
                                exact ⟨⟨fun _ => rfl, fun _ => rfl, fun _ => rfl, fun _ => rfl, fun _ => rfl, fun _ => rfl, fun _ => rfl, fun _ => rfl, fun _ => rfl, fun _ => rfl, fun _ => rfl, fun _ => rfl, fun _ => rfl, fun _ => rfl, fun hc => absurd rfl hc, fun _ => rfl, fun _ => rfl, fun _ => rfl, fun _ => rfl, fun _ => rfl⟩, fun hmem => absurd (by decide) hmem⟩
                              · rw [if_neg h15] at h
                                by_cases h16 : n = "aperio.LineAreaYOffset"
                                · rw [if_pos h16] at h
                                  obtain ⟨x, hx, rfl⟩ := Option.map_eq_some'.mp h
                                  subst h16
                                  exact ⟨⟨fun _ => rfl, fun _ => rfl, fun _ => rfl, fun _ => rfl, fun _ => rfl, fun _ => rfl, fun _ => rfl, fun _ => rfl, fun _ => rfl, fun _ => rfl, fun _ => rfl, fun _ => rfl, fun _ => rfl, fun _ => rfl, fun _ => rfl, fun hc => absurd rfl hc, fun _ => rfl, fun _ => rfl, fun _ => rfl, fun _ => rfl⟩, fun hmem => absurd (by decide) hmem⟩
                                · rw [if_neg h16] at h
                                  by_cases h17 : n = "aperio.Focus Offset"
                                  · rw [if_pos h17] at h
                                    obtain ⟨x, hx, rfl⟩ := Option.map_eq_some'.mp h
                                    subst h17
                                    exact ⟨⟨fun _ => rfl, fun _ => rfl, fun _ => rfl, fun _ => rfl, fun _ => rfl, fun _ => rfl, fun _ => rfl, fun _ => rfl, fun _ => rfl, fun _ => rfl, fun _ => rfl, fun _ => rfl, fun _ => rfl, fun _ => rfl, fun _ => rfl, fun _ => rfl, fun hc => absurd rfl hc, fun _ => rfl, fun _ => rfl, fun _ => rfl⟩, fun hmem => absurd (by decide) hmem⟩
                                  · rw [if_neg h17] at h
                                    by_cases h18 : n = "aperio.AppMag"
                                    · rw [if_pos h18] at h
                                      obtain ⟨x, hx, rfl⟩ := Option.map_eq_some'.mp h
                                      subst h18
                                      exact ⟨⟨fun _ => rfl, fun _ => rfl, fun _ => rfl, fun _ => rfl, fun _ => rfl, fun _ => rfl, fun _ => rfl, fun _ => rfl, fun _ => rfl, fun _ => rfl, fun _ => rfl, fun _ => rfl, fun _ => rfl, fun _ => rfl, fun _ => rfl, fun _ => rfl, fun _ => rfl, fun hc => absurd rfl hc, fun _ => rfl, fun _ => rfl⟩, fun hmem => absurd (by decide) hmem⟩
                                    · rw [if_neg h18] at h
                                      by_cases h19 : n = "aperio.StripeWidth"
                                      · rw [if_pos h19] at h
                                        obtain ⟨x, hx, rfl⟩ := Option.map_eq_some'.mp h
                                        subst h19
                                        exact ⟨⟨fun _ => rfl, fun _ => rfl, fun _ => rfl, fun _ => rfl, fun _ => rfl, fun _ => rfl, fun _ => rfl, fun _ => rfl, fun _ => rfl, fun _ => rfl, fun _ => rfl, fun _ => rfl, fun _ => rfl, fun _ => rfl, fun _ => rfl, fun _ => rfl, fun _ => rfl, fun _ => rfl, fun hc => absurd rfl hc, fun _ => rfl⟩, fun hmem => absurd (by decide) hmem⟩
                                      · rw [if_neg h19] at h
                                        by_cases h20 : n = "aperio.Filtered"
                                        · rw [if_pos h20] at h
                                          obtain ⟨x, hx, rfl⟩ := Option.map_eq_some'.mp h
                                          subst h20
                                          exact ⟨⟨fun _ => rfl, fun _ => rfl, fun _ => rfl, fun _ => rfl, fun _ => rfl, fun _ => rfl, fun _ => rfl, fun _ => rfl, fun _ => rfl, fun _ => rfl, fun _ => rfl, fun _ => rfl, fun _ => rfl, fun _ => rfl, fun _ => rfl, fun _ => rfl, fun _ => rfl, fun _ => rfl, fun _ => rfl, fun hc => absurd rfl hc⟩, fun hmem => absurd (by decide) hmem⟩
                                        · rw [if_neg h20] at h
                                          obtain rfl := Option.some.inj h
                                          exact ⟨⟨fun _ => rfl, fun _ => rfl, fun _ => rfl, fun _ => rfl, fun _ => rfl, fun _ => rfl, fun _ => rfl, fun _ => rfl, fun _ => rfl, fun _ => rfl, fun _ => rfl, fun _ => rfl, fun _ => rfl, fun _ => rfl, fun _ => rfl, fun _ => rfl, fun _ => rfl, fun _ => rfl, fun _ => rfl, fun _ => rfl⟩, fun _ => rfl⟩

/-- The all-`None` initial `Aperio` struct (`Default` derive). -/
def aperioEmpty : Aperio :=
  ⟨none, none, none, none, none, none, none, none, none, none,
   none, none, none, none, none, none, none, none, none, none⟩

/-- Witness for C9: parsing aperio.MPP with value 1 only sets the mpp
field. -/
theorem c9_parse_property_frame_witness :
    framePreserves ("aperio.MPP") aperioEmpty { aperioEmpty with mpp := some 1 } ∧
    ("aperio.MPP" ∉ recognizedNames → { aperioEmpty with mpp := some 1 } = aperioEmpty) :=
  c9_parse_property_frame (fun _ => some 0) (fun _ => some 1) aperioEmpty
    ("aperio.MPP") ("1") { aperioEmpty with mpp := some 1 } (by decide)

lemma decodePixel_length (b0 b1 b2 b3 : Nat) (order : WordRepresentation) :
    (decodePixel b0 b1 b2 b3 order).length = 4 := by
  cases order <;> rfl

lemma decodePixels_length : ∀ (l : List Nat) (order : WordRepresentation),
    (decodePixels l order).length = 4 * (l.length / 4)
  | [], _ => by simp [decodePixels]
  | [_], _ => by simp [decodePixels]
  | [_, _], _ => by simp [decodePixels]
  | [_, _, _], _ => by simp [decodePixels]
  | a :: b :: c :: d :: rest, order => by
    have ih := decodePixels_length rest order
    show (decodePixel a b c d order ++ decodePixels rest order).length =
      4 * ((rest.length + 4) / 4)
    rw [List.length_append, decodePixel_length, ih]
    omega

lemma decodePixels_drop : ∀ (i : Nat) (l : List Nat) (order : WordRepresentation),
    (decodePixels l order).drop (4 * i) = decodePixels (l.drop (4 * i)) order
  | 0, l, order => by simp
  | i + 1, [], order => by
    simp [decodePixels]
  | i + 1, [a], order => by
    have hd : ([a] : List Nat).drop (4 * (i + 1)) = [] :=
      List.drop_eq_nil_of_le (by simp; omega)
    rw [hd]
    simp [show decodePixels [a] order = [] from rfl, decodePixels]
  | i + 1, [a, b], order => by
    have hd : ([a, b] : List Nat).drop (4 * (i + 1)) = [] :=
      List.drop_eq_nil_of_le (by simp; omega)
    rw [hd]
    simp [show decodePixels [a, b] order = [] from rfl, decodePixels]
  | i + 1, [a, b, c], order => by
    have hd : ([a, b, c] : List Nat).drop (4 * (i + 1)) = [] :=
      List.drop_eq_nil_of_le (by simp; omega)
    rw [hd]
    simp [show decodePixels [a, b, c] order = [] from rfl, decodePixels]
  | i + 1, a :: b :: c :: d :: rest, order => by
    have ih := decodePixels_drop i rest order
    show (decodePixel a b c d order ++ decodePixels rest order).drop (4 * (i + 1)) =
      decodePixels ((a :: b :: c :: d :: rest).drop (4 * (i + 1))) order
    have h1 : 4 * (i + 1) = (decodePixel a b c d order).length + 4 * i := by
      rw [decodePixel_length]
      ring
    rw [h1, List.drop_append]
    have h2 : (a :: b :: c :: d :: rest).drop ((decodePixel a b c d order).length + 4 * i) =
        rest.drop (4 * i) := by
      rw [decodePixel_length, show 4 + 4 * i = (4 * i + 3) + 1 from by ring,
        List.drop_succ_cons, show 4 * i + 3 = (4 * i + 2) + 1 from by ring,
        List.drop_succ_cons, show 4 * i + 2 = (4 * i + 1) + 1 from by ring,
        List.drop_succ_cons, List.drop_succ_cons]
    rw [h2]
    exact ih

lemma drop_four_eq (l : List Nat) (i : Nat) (h : i + 4 ≤ l.length) :
    l.drop i = l.getD i 0 :: l.getD (i + 1) 0 :: l.getD (i + 2) 0 ::
      l.getD (i + 3) 0 :: l.drop (i + 4) := by
  have h0 : i < l.length := by omega
  have h1 : i + 1 < l.length := by omega
  have h2 : i + 2 < l.length := by omega
  have h3 : i + 3 < l.length := by omega
  rw [List.drop_eq_getElem_cons h0, List.drop_eq_getElem_cons h1,
    List.drop_eq_getElem_cons h2, List.drop_eq_getElem_cons h3,
    List.getD_eq_getElem l 0 h0, List.getD_eq_getElem l 0 h1,
    List.getD_eq_getElem l 0 h2, List.getD_eq_getElem l 0 h3]

lemma unpremultiply_zero (c : Nat) : unpremultiply c 0 = 0 := rfl

lemma unpremultiply_255 (c : Nat) (hc : c < 256) : unpremultiply c 255 = c := by
  rw [unpremultiply, if_neg (by omega), roundDiv]
  have hdiv : (2 * (c * 255) + 255) / (2 * 255) = c := by omega
  rw [hdiv]
  exact Nat.min_eq_right (by omega)

/-- Claim C2 (decoder modelled from the spec): for every correctly sized
byte buffer, decoding succeeds, and each pixel of the output holds, in fixed
R, G, B, A order, the un-premultiplied channels of the corresponding input
word: zero alpha gives an all-zero pixel, nonzero alpha gives
`min(255, round(channel * 255 / alpha))` per colour channel, and alpha 255
reproduces the input colour bytes exactly. -/
theorem c2_decode_unpremultiply (buffer : List Nat) (h w : Nat)
    (order : WordRepresentation) (hlen : buffer.length = h * w * 4)
    (hbytes : ∀ x ∈ buffer, x < 256) :
    ∃ out, decode_buffer buffer h w order = Except.ok out ∧
      out.length = h * w * 4 ∧
      ∀ i, i < h * w →
        ∃ r g b a, inputChannels buffer order i = (r, g, b, a) ∧
          (out.drop (4 * i)).take 4 =
            [unpremultiply r a, unpremultiply g a, unpremultiply b a, a] ∧
          (a = 0 → (out.drop (4 * i)).take 4 = [0, 0, 0, 0]) ∧
          (a ≠ 0 →
            unpremultiply r a = min 255 (roundDiv (r * 255) a) ∧
            unpremultiply g a = min 255 (roundDiv (g * 255) a) ∧
            unpremultiply b a = min 255 (roundDiv (b * 255) a)) ∧
          (a = 255 → (out.drop (4 * i)).take 4 = [r, g, b, 255]) := by
  refine ⟨decodePixels buffer order, ?_, ?_, ?_⟩
  · rw [decode_buffer, if_pos hlen]
  · rw [decodePixels_length, hlen]
    omega
  · intro i hi
    have hle : 4 * i + 4 ≤ buffer.length := by omega
    have h0 : 4 * i < buffer.length := by omega
    have h1 : 4 * i + 1 < buffer.length := by omega
    have h2 : 4 * i + 2 < buffer.length := by omega
    have h3 : 4 * i + 3 < buffer.length := by omega
    have hb0 : buffer.getD (4 * i) 0 < 256 := by
      rw [List.getD_eq_getElem buffer 0 h0]
      exact hbytes _ (List.getElem_mem h0)
    have hb1 : buffer.getD (4 * i + 1) 0 < 256 := by
      rw [List.getD_eq_getElem buffer 0 h1]
      exact hbytes _ (List.getElem_mem h1)
    have hb2 : buffer.getD (4 * i + 2) 0 < 256 := by
      rw [List.getD_eq_getElem buffer 0 h2]
      exact hbytes _ (List.getElem_mem h2)
    have hb3 : buffer.getD (4 * i + 3) 0 < 256 := by
      rw [List.getD_eq_getElem buffer 0 h3]
      exact hbytes _ (List.getElem_mem h3)
    have hdrop := drop_four_eq buffer (4 * i) hle
    have hod : (decodePixels buffer order).drop (4 * i) =
        decodePixels (buffer.drop (4 * i)) order := decodePixels_drop i buffer order
    have htake : ((decodePixels buffer order).drop (4 * i)).take 4 =
        decodePixel (buffer.getD (4 * i) 0) (buffer.getD (4 * i + 1) 0)
          (buffer.getD (4 * i + 2) 0) (buffer.getD (4 * i + 3) 0) order := by
      rw [hod, hdrop]
      show (decodePixel (buffer.getD (4 * i) 0) (buffer.getD (4 * i + 1) 0)
        (buffer.getD (4 * i + 2) 0) (buffer.getD (4 * i + 3) 0) order ++
        decodePixels (buffer.drop (4 * i + 4)) order).take 4 = _
      have ht := List.take_left
        (decodePixel (buffer.getD (4 * i) 0) (buffer.getD (4 * i + 1) 0)
          (buffer.getD (4 * i + 2) 0) (buffer.getD (4 * i + 3) 0) order)
        (decodePixels (buffer.drop (4 * i + 4)) order)
      rw [decodePixel_length] at ht
      exact ht
    cases order with
    | bigEndian =>
      refine ⟨buffer.getD (4 * i + 1) 0, buffer.getD (4 * i + 2) 0,
        buffer.getD (4 * i + 3) 0, buffer.getD (4 * i) 0, rfl, ?_, ?_, ?_, ?_⟩
      · rw [htake]
        rfl
      · intro ha
        rw [htake]
        simp only [decodePixel]
        rw [ha]
        simp [unpremultiply_zero]
      · intro ha
        exact ⟨by rw [unpremultiply, if_neg ha], by rw [unpremultiply, if_neg ha],
          by rw [unpremultiply, if_neg ha]⟩
      · intro ha
        rw [htake]
        simp only [decodePixel]
        rw [ha, unpremultiply_255 _ hb1, unpremultiply_255 _ hb2,
          unpremultiply_255 _ hb3]
    | littleEndian =>
      refine ⟨buffer.getD (4 * i + 2) 0, buffer.getD (4 * i + 1) 0,
        buffer.getD (4 * i) 0, buffer.getD (4 * i + 3) 0, rfl, ?_, ?_, ?_, ?_⟩
      · rw [htake]
        rfl
      · intro ha
        rw [htake]
        simp only [decodePixel]
        rw [ha]
        simp [unpremultiply_zero]
      · intro ha
        exact ⟨by rw [unpremultiply, if_neg ha], by rw [unpremultiply, if_neg ha],
          by rw [unpremultiply, if_neg ha]⟩
      · intro ha
        rw [htake]
        simp only [decodePixel]
        rw [ha, unpremultiply_255 _ hb2, unpremultiply_255 _ hb1,
          unpremultiply_255 _ hb0]

/-- Witness for C2: a two-pixel big-endian buffer whose first word has
alpha 255 and whose second has alpha 0. -/
theorem c2_decode_unpremultiply_witness :
    ∃ out, decode_buffer [255, 10, 20, 30, 0, 50, 60, 70] 1 2
        WordRepresentation.bigEndian = Except.ok out ∧
      out.length = 1 * 2 * 4 ∧
      ∀ i, i < 1 * 2 →
        ∃ r g b a, inputChannels [255, 10, 20, 30, 0, 50, 60, 70]
            WordRepresentation.bigEndian i = (r, g, b, a) ∧
          (out.drop (4 * i)).take 4 =
            [unpremultiply r a, unpremultiply g a, unpremultiply b a, a] ∧
          (a = 0 → (out.drop (4 * i)).take 4 = [0, 0, 0, 0]) ∧
          (a ≠ 0 →
            unpremultiply r a = min 255 (roundDiv (r * 255) a) ∧
            unpremultiply g a = min 255 (roundDiv (g * 255) a) ∧
            unpremultiply b a = min 255 (roundDiv (b * 255) a)) ∧
          (a = 255 → (out.drop (4 * i)).take 4 = [r, g, b, 255]) :=
  c2_decode_unpremultiply [255, 10, 20, 30, 0, 50, 60, 70] 1 2
    WordRepresentation.bigEndian (by decide) (by decide)

/-- Claim C5 (decoder modelled from the spec): a buffer whose length is not
`height * width * 4` makes `decode_buffer` fail with the length-mismatch
error before producing any pixel, and a successful decode always comes from
a buffer of exactly that length and has exactly that output length — never a
truncated or padded partial image. -/
theorem c5_decode_length_check (buffer : List Nat) (h w : Nat)
    (order : WordRepresentation) (hbad : buffer.length ≠ h * w * 4) :
    decode_buffer buffer h w order =
      Except.error ("Error: Buffer length does not match height * width * 4") ∧
    ∀ (buf2 out : List Nat), decode_buffer buf2 h w order = Except.ok out →
      buf2.length = h * w * 4 ∧ out.length = h * w * 4 := by
  constructor
  · rw [decode_buffer, if_neg hbad]
  · intro buf2 out hok
    rw [decode_buffer] at hok
    by_cases hl : buf2.length = h * w * 4
    · rw [if_pos hl] at hok
      simp only [Except.ok.injEq] at hok
      subst hok
      refine ⟨hl, ?_⟩
      rw [decodePixels_length, hl]
      omega
    · rw [if_neg hl] at hok
      simp at hok

/-- Witness for C5: a buffer of length `1*1*4 - 1 = 3` is rejected with the
length-mismatch error. -/
theorem c5_decode_length_check_witness :
    decode_buffer [0, 0, 0] 1 1 WordRepresentation.bigEndian =
      Except.error ("Error: Buffer length does not match height * width * 4") ∧
    ∀ (buf2 out : List Nat),
      decode_buffer buf2 1 1 WordRepresentation.bigEndian = Except.ok out →
      buf2.length = 1 * 1 * 4 ∧ out.length = 1 * 1 * 4 :=
  c5_decode_length_check [0, 0, 0] 1 1 WordRepresentation.bigEndian (by decide)
